import Mathlib

/-!
Shallow embedding of the two Airflow DAG modules of the Chia repository:
`src/airflow/dags/auto_deploy_impactu.py` and
`src/airflow/dags/impactu_airflow_pr_validator.py`.

Subprocess invocations and HTTP calls are modelled as oracles supplied as
parameters (a `CmdResult` per invocation), the filesystem as an association
list from paths to file contents, and side effects as an explicit trace of
`Effect` values emitted in program order.
-/

namespace Chia

/-- Result of one `subprocess.run` invocation (returncode, stdout, stderr). -/
structure CmdResult where
  returncode : Int
  stdout : String
  stderr : String
deriving Repr, DecidableEq

/-- String prefix test, modelling Python `str.startswith`. -/
def strPre (s t : String) : Bool := s.data.isPrefixOf t.data

/-- String suffix test, modelling Python `str.endswith`. -/
def strSuf (s t : String) : Bool := s.data.isSuffixOf t.data

/-! ### Filesystem model

A filesystem is a list of (path, content) entries; the most recent write of
a path shadows older entries.  `rmtree` drops every entry under a directory. -/

abbrev Fs := List (String × String)

/-- Look up the current content of a path (most recent write wins). -/
def Fs.lookup : Fs → String → Option String
  | [], _ => none
  | (q, c) :: rest, p => if q = p then some c else Fs.lookup rest p

/-- Write one file, shadowing any previous entry, as `open(path, "w")` does. -/
def Fs.write (fs : Fs) (p c : String) : Fs := (p, c) :: fs

/-- `shutil.rmtree(dir)`: remove every entry whose path lies under `dir`. -/
def Fs.rmtree (fs : Fs) (dir : String) : Fs :=
  fs.filter (fun e => !(strPre dir e.1))

/-- `os.path.exists(dir)` for a directory: some entry lies under it. -/
def Fs.existsDir (fs : Fs) (dir : String) : Bool :=
  fs.any (fun e => strPre dir e.1)

/-! ### auto_deploy_impactu.py -/

/--
Model of `check_for_updates` (src/airflow/dags/auto_deploy_impactu.py,
lines 17-50).
The HTTP fetch of the latest commit SHA and the `Variable.get` read are
modelled as `Except` oracles (an `.error` value means the corresponding call
raised).  The return value pairs the boolean returned to the sensor with the
SHA pushed to XCom (`none` when no push happened).
-/
def check_for_updates (fetchSha : Except String String)
    (varGet : Except String (Option String)) : Bool × Option String :=
  match fetchSha with
  | Except.error _ => (false, none)
  | Except.ok latest_commit =>
    match varGet with
    | Except.error _ => (false, none)
    | Except.ok last_deployed_commit =>
      if last_deployed_commit ≠ some latest_commit then
        (true, some latest_commit)
      else
        (false, none)

/-! ### impactu_airflow_pr_validator.py : data model -/

/-- Change status of one PR file, as reported by the GitHub files API. -/
inductive FileStatus where
  | added
  | modified
  | removed
  | renamed
deriving Repr, DecidableEq

/-- One entry of the changed-file list (`fetch_pr_files` response): the
repo-relative path, its change status, and the raw content behind
`raw_url` (what `download_pr_file` would write). -/
structure PRFile where
  filename : String
  status : FileStatus
  content : String
deriving Repr, DecidableEq

/-- One failed entry of a per-file check stage: the dict
`{"file": ..., "error": ...}` appended by the stage loops. -/
structure FailEntry where
  file : String
  error : String
deriving Repr, DecidableEq

/-- Result dict of a per-file check stage: `{"passed": [...], "failed": [...]}`. -/
structure StageResults where
  passed : List String
  failed : List FailEntry
deriving Repr, DecidableEq

/-- Result dict of the import stage: `{"success": ..., "error"?: ...}`. -/
structure ImportResults where
  success : Bool
  error : Option String
deriving Repr, DecidableEq

/-- A value of the report `checks` mapping (stage name to stage result). -/
inductive CheckValue where
  | stage (r : StageResults)
  | imp (r : ImportResults)
deriving Repr, DecidableEq

/-- The `validation_report` dict built by `validate_pr` (lines 361-366):
fields `pr_number`, `timestamp`, `status`, `checks` are present from the
start; `message` and `error` are added later when assigned. -/
structure Report where
  pr_number : Nat
  timestamp : String
  status : String
  checks : List (String × CheckValue)
  message : Option String := none
  error : Option String := none
deriving Repr, DecidableEq

/-- The key set of the JSON object `json.dump` serialises for a report. -/
def Report.keys (r : Report) : List String :=
  ["pr_number", "timestamp", "status", "checks"]
    ++ (if r.message.isSome then ["message"] else [])
    ++ (if r.error.isSome then ["error"] else [])

/-- Stand-in for the `json.dump` serialisation of a report. -/
def Report.dump (r : Report) : String := toString (repr r)

/-- One observable side effect of `validate_pr`, in program order. -/
inductive Effect where
  | rmtree (dir : String)
  | makedirs (dir : String)
  | fetch_pr_info
  | fetch_pr_files
  | download_archive (branch : String)
  | download_file (path : String)
  | write_airflowignore
  | uv_venv
  | uv_pip_install
  | db_migrate
  | py_compile (path : String)
  | import_check
  | structure_check (path : String)
  | write_report (r : Report)
deriving Repr, DecidableEq

/-- Is this effect one of the two `uv` environment-provisioning subprocesses? -/
def Effect.isProvision : Effect → Bool
  | Effect.uv_venv => true
  | Effect.uv_pip_install => true
  | _ => false

/-- Is this effect a Check Runner stage subprocess? -/
def Effect.isCheckRun : Effect → Bool
  | Effect.py_compile _ => true
  | Effect.import_check => true
  | Effect.structure_check _ => true
  | _ => false

/-- Is this effect the `airflow db migrate` subprocess? -/
def Effect.isDbMigrate : Effect → Bool
  | Effect.db_migrate => true
  | _ => false

/-- Stage number of a Check Runner effect (1 = compile, 2 = import,
3 = structure), `none` for every other effect. -/
def Effect.stageTag : Effect → Option Nat
  | Effect.py_compile _ => some 1
  | Effect.import_check => some 2
  | Effect.structure_check _ => some 3
  | _ => none

/-- The report carried by a `write_report` effect, `none` otherwise. -/
def Effect.toReport : Effect → Option Report
  | Effect.write_report r => some r
  | _ => none

/-- The reports carried by the `write_report` effects of a trace, in order:
exactly the reports `json.dump`ed to `validation_report.json`. -/
def persistedReports (effs : List Effect) : List Report :=
  effs.filterMap Effect.toReport

/-- The Check Runner stage numbers of a trace, in order. -/
def stageTags (effs : List Effect) : List Nat :=
  effs.filterMap Effect.stageTag

/-! ### impactu_airflow_pr_validator.py : operations -/

/-- All external inputs and subprocess oracles of one `validate_pr` run. -/
structure PrEnv where
  pr_number : Nat
  timestamp : String
  base_ref : String
  branch_files : List (String × String)
  pr_files : List PRFile
  py_compile : String → CmdResult
  import_run : CmdResult
  struct_run : String → CmdResult
  db_migrate_run : CmdResult

/-- `base_dir = f"/tmp/airflow_pr_{pr_number}"` (line 360). -/
def base_dir (pr_number : Nat) : String := "/tmp/airflow_pr_" ++ toString pr_number

/-- Lines 392-395: the changed DAG files are the changed files whose path
starts with `dags/` and ends with `.py`, in input order. -/
def changedDags (pr_files : List PRFile) : List String :=
  (pr_files.filter (fun f => strPre "dags/" f.filename && strSuf ".py" f.filename)).map
    PRFile.filename

/--
Model of `validate_syntax` (lines 170-201): run `py_compile` on `base_dir/file` for
each changed file, appending to `passed` on returncode 0 and to `failed`
(with the captured stderr) otherwise.
-/
def validate_syntax (dag_files : List String) (dir : String)
    (py_compile : String → CmdResult) : StageResults :=
  dag_files.foldl
    (fun results dag_file =>
      let result := py_compile (dir ++ "/" ++ dag_file)
      if result.returncode = 0 then
        { results with passed := results.passed ++ [dag_file] }
      else
        { results with failed := results.failed ++ [{ file := dag_file, error := result.stderr }] })
    { passed := [], failed := [] }

/-- `validate_imports` (lines 204-251): one DagBag subprocess for the whole
folder; success iff its returncode is 0, else the stderr is recorded. -/
def validate_imports (run_result : CmdResult) : ImportResults :=
  if run_result.returncode ≠ 0 then
    { success := false, error := some run_result.stderr }
  else
    { success := true, error := none }

/-- `validate_dag_structure` (lines 254-338): one subprocess per changed
file, appending to `passed` on returncode 0 and to `failed` otherwise. -/
def validate_dag_structure (dag_files : List String)
    (struct_run : String → CmdResult) : StageResults :=
  dag_files.foldl
    (fun results dag_file =>
      let result := struct_run dag_file
      if result.returncode = 0 then
        { results with passed := results.passed ++ [dag_file] }
      else
        { results with failed := results.failed ++ [{ file := dag_file, error := result.stderr }] })
    { passed := [], failed := [] }

/-- The report as first initialised (lines 361-366). -/
def initialReport (env : PrEnv) : Report :=
  { pr_number := env.pr_number, timestamp := env.timestamp,
    status := "running", checks := [] }

/-- Effects of the setup phase (lines 374-384): conditional `rmtree`,
`makedirs`, and the two GitHub metadata fetches. -/
def setupEffs (env : PrEnv) (fs0 : Fs) : List Effect :=
  (if Fs.existsDir fs0 (base_dir env.pr_number) then [Effect.rmtree (base_dir env.pr_number)]
   else [])
    ++ [Effect.makedirs (base_dir env.pr_number), Effect.fetch_pr_info, Effect.fetch_pr_files]

/-- Lines 410-419: overlay the PR changes onto the workspace — each changed
file whose status is not `removed` is downloaded and written to
`base_dir/filename`; `removed` entries are skipped (never deleted). -/
def applyPrOverlay (dir : String) (pr_files : List PRFile) (fs : Fs) : Fs :=
  pr_files.foldl
    (fun acc pr_file =>
      if pr_file.status = FileStatus.removed then acc
      else Fs.write acc (dir ++ "/" ++ pr_file.filename) pr_file.content)
    fs

/-- Effects of the fetch phase (lines 407-423): branch archive download,
one file download per non-removed PR file, and the `.airflowignore` write. -/
def fetchEffs (env : PrEnv) : List Effect :=
  Effect.download_archive env.base_ref
    :: env.pr_files.filterMap
        (fun pr_file =>
          if pr_file.status = FileStatus.removed then none
          else some (Effect.download_file pr_file.filename))
    ++ [Effect.write_airflowignore]

/-- The workspace after the setup and fetch phases: previous contents for
the PR number removed (line 377), the base branch archive extracted with
`dirs_exist_ok` overwrites (line 91), the non-removed PR files overlaid
(lines 412-419), and `.airflowignore` written (lines 422-423). -/
def fsAfterFetch (env : PrEnv) (fs0 : Fs) : Fs :=
  Fs.write
    (applyPrOverlay (base_dir env.pr_number) env.pr_files
      (env.branch_files.foldl
        (fun fs bf => Fs.write fs (base_dir env.pr_number ++ "/" ++ bf.1) bf.2)
        (Fs.rmtree fs0 (base_dir env.pr_number))))
    (base_dir env.pr_number ++ "/.airflowignore") "venv/\n.git/\n__pycache__/\n"

/-- Effects of the environment phase (lines 426-438): the two `uv`
subprocesses only when `requirements.txt` exists in the workspace
(lines 119-121), then `airflow db migrate`. -/
def provisionEffs (env : PrEnv) (fs0 : Fs) : List Effect :=
  (if (Fs.lookup (fsAfterFetch env fs0)
        (base_dir env.pr_number ++ "/requirements.txt")).isSome then
    [Effect.uv_venv, Effect.uv_pip_install]
   else [])
    ++ [Effect.db_migrate]

/-- Validation phase (lines 440-487): the three ordered checks with the
fail-fast raises, and the success-path report write (lines 482-485).
A raise is an `Except.error` carrying the exception text and the report
as mutated so far. -/
def stagesPhase (env : PrEnv) (fs : Fs) (effs : List Effect) (report0 : Report)
    (changed_dags : List String) (dir : String) :
    (Except (String × Report) Report) × Fs × List Effect :=
  let syn_results := validate_syntax changed_dags dir env.py_compile
  let effsA := effs ++ changed_dags.map (fun f => Effect.py_compile (dir ++ "/" ++ f))
  let report1 := { report0 with checks := report0.checks ++ [("syntax", CheckValue.stage syn_results)] }
  if syn_results.failed.isEmpty then
    let imp_results := validate_imports env.import_run
    let effsB := effsA ++ [Effect.import_check]
    let report2 := { report1 with checks := report1.checks ++ [("imports", CheckValue.imp imp_results)] }
    if imp_results.success then
      let struct_results := validate_dag_structure changed_dags env.struct_run
      let effsC := effsB ++ changed_dags.map (fun f => Effect.structure_check f)
      let report3 := { report2 with checks := report2.checks ++ [("structure", CheckValue.stage struct_results)] }
      if struct_results.failed.isEmpty then
        let finalReport := { report3 with status := "success", message := some "All validations passed" }
        (Except.ok finalReport,
         Fs.write fs (dir ++ "/validation_report.json") (Report.dump finalReport),
         effsC ++ [Effect.write_report finalReport])
      else
        (Except.error
          ("Structure errors in " ++ toString struct_results.failed.length ++ " file(s)",
           { report3 with status := "failed", message := some "Structure validation failed" }),
         fs, effsC)
    else
      (Except.error
        ("DAG import errors detected",
         { report2 with status := "failed", message := some "Import validation failed" }),
       fs, effsB)
  else
    (Except.error
      ("Syntax errors in " ++ toString syn_results.failed.length ++ " file(s)",
       { report1 with status := "failed", message := some "Syntax validation failed" }),
     fs, effsA)

/-- The `try` block of `validate_pr` (lines 368-487): setup, skipped early
return (lines 397-401), fetch, provisioning (an `airflow db migrate`
failure raises, line 163), and the validation phase. -/
def validate_pr_body (env : PrEnv) (fs0 : Fs) :
    (Except (String × Report) Report) × Fs × List Effect :=
  let dir := base_dir env.pr_number
  let report0 := initialReport env
  let fs1 := Fs.rmtree fs0 dir
  let effs0 := setupEffs env fs0
  let changed_dags := changedDags env.pr_files
  if changed_dags.isEmpty then
    (Except.ok { report0 with status := "skipped", message := some "No DAG files modified" },
     fs1, effs0)
  else
    let fs2 := fsAfterFetch env fs0
    let effs1 := effs0 ++ fetchEffs env ++ provisionEffs env fs0
    if env.db_migrate_run.returncode ≠ 0 then
      (Except.error ("Failed to initialize Airflow database", report0), fs2, effs1)
    else
      stagesPhase env fs2 effs1 report0 changed_dags dir

/--
Model of `validate_pr` (lines 343-509).  The `except` handler (lines 489-504)
overwrites `status` with `"error"`, records the exception text under
`error`, writes the report to `validation_report.json`, and re-raises
(the `Except.error` result).
-/
def validate_pr (env : PrEnv) (fs0 : Fs) :
    (Except String Report) × Fs × List Effect :=
  match validate_pr_body env fs0 with
  | (Except.ok r, fs, effs) => (Except.ok r, fs, effs)
  | (Except.error (msg, r), fs, effs) =>
    let r2 := { r with status := "error", error := some msg }
    (Except.error msg,
     Fs.write fs (base_dir env.pr_number ++ "/validation_report.json") (Report.dump r2),
     effs ++ [Effect.write_report r2])

/-! ### Derived descriptions of the stage results and reports of a run -/

/-- The syntax stage result of a run with inputs `env`. -/
def synRes (env : PrEnv) : StageResults :=
  validate_syntax (changedDags env.pr_files) (base_dir env.pr_number) env.py_compile

/-- The import stage result of a run with inputs `env`. -/
def impRes (env : PrEnv) : ImportResults := validate_imports env.import_run

/-- The structure stage result of a run with inputs `env`. -/
def structRes (env : PrEnv) : StageResults :=
  validate_dag_structure (changedDags env.pr_files) env.struct_run

/-- The syntax stage subprocess effects of a run with inputs `env`. -/
def synEffs (env : PrEnv) : List Effect :=
  (changedDags env.pr_files).map
    (fun f => Effect.py_compile (base_dir env.pr_number ++ "/" ++ f))

/-- The structure stage subprocess effects of a run with inputs `env`. -/
def structEffs (env : PrEnv) : List Effect :=
  (changedDags env.pr_files).map (fun f => Effect.structure_check f)

/-- Effects of the setup, fetch and provisioning phases together. -/
def preludeEffs (env : PrEnv) (fs0 : Fs) : List Effect :=
  setupEffs env fs0 ++ fetchEffs env ++ provisionEffs env fs0

/-- The report returned on the skipped path (lines 397-401). -/
def skipReport (env : PrEnv) : Report :=
  { initialReport env with status := "skipped", message := some "No DAG files modified" }

/-- The report persisted when `airflow db migrate` fails. -/
def dbFailReport (env : PrEnv) : Report :=
  { initialReport env with
    status := "error",
    error := some "Failed to initialize Airflow database" }

/-- The report persisted when the syntax stage fails. -/
def synFailReport (env : PrEnv) : Report :=
  { pr_number := env.pr_number, timestamp := env.timestamp, status := "error",
    checks := [("syntax", CheckValue.stage (synRes env))],
    message := some "Syntax validation failed",
    error := some ("Syntax errors in " ++ toString (synRes env).failed.length ++ " file(s)") }

/-- The report persisted when the import stage fails. -/
def impFailReport (env : PrEnv) : Report :=
  { pr_number := env.pr_number, timestamp := env.timestamp, status := "error",
    checks := [("syntax", CheckValue.stage (synRes env)), ("imports", CheckValue.imp (impRes env))],
    message := some "Import validation failed",
    error := some "DAG import errors detected" }

/-- The report persisted when the structure stage fails. -/
def structFailReport (env : PrEnv) : Report :=
  { pr_number := env.pr_number, timestamp := env.timestamp, status := "error",
    checks := [("syntax", CheckValue.stage (synRes env)), ("imports", CheckValue.imp (impRes env)),
               ("structure", CheckValue.stage (structRes env))],
    message := some "Structure validation failed",
    error := some ("Structure errors in " ++ toString (structRes env).failed.length ++ " file(s)") }

/-- The report persisted when all three stages pass. -/
def successReport (env : PrEnv) : Report :=
  { pr_number := env.pr_number, timestamp := env.timestamp, status := "success",
    checks := [("syntax", CheckValue.stage (synRes env)), ("imports", CheckValue.imp (impRes env)),
               ("structure", CheckValue.stage (structRes env))],
    message := some "All validations passed" }

/-- The path of the persisted report file for a PR number. -/
def reportPath (pr_number : Nat) : String :=
  base_dir pr_number ++ "/validation_report.json"

/-! ### Scenario lemmas: one equation per control-flow path of `validate_pr` -/

theorem run_skipped (env : PrEnv) (fs0 : Fs) (h : changedDags env.pr_files = []) :
    validate_pr env fs0 =
      (Except.ok (skipReport env), Fs.rmtree fs0 (base_dir env.pr_number), setupEffs env fs0) := by
  simp [validate_pr, validate_pr_body, skipReport, h]

theorem run_db_fail (env : PrEnv) (fs0 : Fs) (h1 : changedDags env.pr_files ≠ [])
    (h2 : env.db_migrate_run.returncode ≠ 0) :
    validate_pr env fs0 =
      (Except.error "Failed to initialize Airflow database",
       Fs.write (fsAfterFetch env fs0) (reportPath env.pr_number) (Report.dump (dbFailReport env)),
       preludeEffs env fs0 ++ [Effect.write_report (dbFailReport env)]) := by
  have hne : (changedDags env.pr_files).isEmpty = false := by
    simp [List.isEmpty_iff, h1]
  simp [validate_pr, validate_pr_body, hne, h2, dbFailReport, reportPath, preludeEffs,
    initialReport]

theorem run_syn_fail (env : PrEnv) (fs0 : Fs) (h1 : changedDags env.pr_files ≠ [])
    (h2 : env.db_migrate_run.returncode = 0) (h3 : (synRes env).failed ≠ []) :
    validate_pr env fs0 =
      (Except.error ("Syntax errors in " ++ toString (synRes env).failed.length ++ " file(s)"),
       Fs.write (fsAfterFetch env fs0) (reportPath env.pr_number) (Report.dump (synFailReport env)),
       (preludeEffs env fs0 ++ synEffs env) ++ [Effect.write_report (synFailReport env)]) := by
  have hne : (changedDags env.pr_files).isEmpty = false := by
    simp [List.isEmpty_iff, h1]
  have h3u : ( validate_syntax (changedDags env.pr_files) (base_dir env.pr_number)
      env.py_compile).failed ≠ [] := h3
  simp [validate_pr, validate_pr_body, stagesPhase, hne, h2, h3u, synRes, synFailReport,
    reportPath, preludeEffs, initialReport, synEffs]

theorem run_imp_fail (env : PrEnv) (fs0 : Fs) (h1 : changedDags env.pr_files ≠ [])
    (h2 : env.db_migrate_run.returncode = 0) (h3 : (synRes env).failed = [])
    (h4 : (impRes env).success = false) :
    validate_pr env fs0 =
      (Except.error "DAG import errors detected",
       Fs.write (fsAfterFetch env fs0) (reportPath env.pr_number) (Report.dump (impFailReport env)),
       ((preludeEffs env fs0 ++ synEffs env) ++ [Effect.import_check])
         ++ [Effect.write_report (impFailReport env)]) := by
  have hne : (changedDags env.pr_files).isEmpty = false := by
    simp [List.isEmpty_iff, h1]
  have h3u : ( validate_syntax (changedDags env.pr_files) (base_dir env.pr_number)
      env.py_compile).failed = [] := h3
  have h4u : (validate_imports env.import_run).success = false := h4
  simp [validate_pr, validate_pr_body, stagesPhase, hne, h2, h3u, h4u, synRes, impRes,
    impFailReport, reportPath, preludeEffs, initialReport, synEffs]

theorem run_struct_fail (env : PrEnv) (fs0 : Fs) (h1 : changedDags env.pr_files ≠ [])
    (h2 : env.db_migrate_run.returncode = 0) (h3 : (synRes env).failed = [])
    (h4 : (impRes env).success = true) (h5 : (structRes env).failed ≠ []) :
    validate_pr env fs0 =
      (Except.error ("Structure errors in " ++ toString (structRes env).failed.length ++ " file(s)"),
       Fs.write (fsAfterFetch env fs0) (reportPath env.pr_number)
         (Report.dump (structFailReport env)),
       (((preludeEffs env fs0 ++ synEffs env) ++ [Effect.import_check]) ++ structEffs env)
         ++ [Effect.write_report (structFailReport env)]) := by
  have hne : (changedDags env.pr_files).isEmpty = false := by
    simp [List.isEmpty_iff, h1]
  have h3u : ( validate_syntax (changedDags env.pr_files) (base_dir env.pr_number)
      env.py_compile).failed = [] := h3
  have h4u : (validate_imports env.import_run).success = true := h4
  have h5u : (validate_dag_structure (changedDags env.pr_files) env.struct_run).failed ≠ [] := h5
  simp [validate_pr, validate_pr_body, stagesPhase, hne, h2, h3u, h4u, h5u, synRes, impRes,
    structRes, structFailReport, reportPath, preludeEffs, initialReport, synEffs, structEffs]

theorem run_success (env : PrEnv) (fs0 : Fs) (h1 : changedDags env.pr_files ≠ [])
    (h2 : env.db_migrate_run.returncode = 0) (h3 : (synRes env).failed = [])
    (h4 : (impRes env).success = true) (h5 : (structRes env).failed = []) :
    validate_pr env fs0 =
      (Except.ok (successReport env),
       Fs.write (fsAfterFetch env fs0) (reportPath env.pr_number)
         (Report.dump (successReport env)),
       (((preludeEffs env fs0 ++ synEffs env) ++ [Effect.import_check]) ++ structEffs env)
         ++ [Effect.write_report (successReport env)]) := by
  have hne : (changedDags env.pr_files).isEmpty = false := by
    simp [List.isEmpty_iff, h1]
  have h3u : ( validate_syntax (changedDags env.pr_files) (base_dir env.pr_number)
      env.py_compile).failed = [] := h3
  have h4u : (validate_imports env.import_run).success = true := h4
  have h5u : (validate_dag_structure (changedDags env.pr_files) env.struct_run).failed = [] := h5
  simp [validate_pr, validate_pr_body, stagesPhase, hne, h2, h3u, h4u, h5u, synRes, impRes,
    structRes, successReport, reportPath, preludeEffs, initialReport, synEffs, structEffs]

/-! ### Trace decomposition helpers -/

theorem persistedReports_append (l1 l2 : List Effect) :
    persistedReports (l1 ++ l2) = persistedReports l1 ++ persistedReports l2 :=
  List.filterMap_append ..

theorem stageTags_append (l1 l2 : List Effect) :
    stageTags (l1 ++ l2) = stageTags l1 ++ stageTags l2 :=
  List.filterMap_append ..

theorem persistedReports_setup (env : PrEnv) (fs0 : Fs) :
    persistedReports (setupEffs env fs0) = [] := by
  unfold setupEffs
  split <;> rfl

theorem persistedReports_fetch (env : PrEnv) :
    persistedReports (fetchEffs env) = [] := by
  rw [persistedReports, List.filterMap_eq_nil_iff]
  intro e he
  simp only [fetchEffs, List.cons_append, List.mem_cons, List.mem_append,
    List.mem_filterMap, List.mem_singleton] at he
  rcases he with rfl | ⟨f, _, hf⟩ | rfl | h0
  · rfl
  · by_cases hr : f.status = FileStatus.removed <;> simp [hr] at hf
    subst hf; rfl
  · rfl
  · simp at h0

theorem persistedReports_provision (env : PrEnv) (fs0 : Fs) :
    persistedReports (provisionEffs env fs0) = [] := by
  unfold provisionEffs
  rw [persistedReports, List.filterMap_append]
  split <;> rfl

theorem persistedReports_syn (env : PrEnv) :
    persistedReports (synEffs env) = [] := by
  rw [persistedReports, List.filterMap_eq_nil_iff]
  intro e he
  simp only [synEffs, List.mem_map] at he
  obtain ⟨f, _, rfl⟩ := he
  rfl

theorem persistedReports_struct (env : PrEnv) :
    persistedReports (structEffs env) = [] := by
  rw [persistedReports, List.filterMap_eq_nil_iff]
  intro e he
  simp only [structEffs, List.mem_map] at he
  obtain ⟨f, _, rfl⟩ := he
  rfl

theorem persistedReports_prelude (env : PrEnv) (fs0 : Fs) :
    persistedReports (preludeEffs env fs0) = [] := by
  simp [preludeEffs, persistedReports_append, persistedReports_setup,
    persistedReports_fetch, persistedReports_provision]

theorem stageTags_setup (env : PrEnv) (fs0 : Fs) :
    stageTags (setupEffs env fs0) = [] := by
  unfold setupEffs
  split <;> rfl

theorem stageTags_fetch (env : PrEnv) :
    stageTags (fetchEffs env) = [] := by
  rw [stageTags, List.filterMap_eq_nil_iff]
  intro e he
  simp only [fetchEffs, List.cons_append, List.mem_cons, List.mem_append,
    List.mem_filterMap, List.mem_singleton] at he
  rcases he with rfl | ⟨f, _, hf⟩ | rfl | h0
  · rfl
  · by_cases hr : f.status = FileStatus.removed <;> simp [hr] at hf
    subst hf; rfl
  · rfl
  · simp at h0

theorem stageTags_provision (env : PrEnv) (fs0 : Fs) :
    stageTags (provisionEffs env fs0) = [] := by
  unfold provisionEffs
  rw [stageTags, List.filterMap_append]
  split <;> rfl

theorem stageTags_prelude (env : PrEnv) (fs0 : Fs) :
    stageTags (preludeEffs env fs0) = [] := by
  simp [preludeEffs, stageTags_append, stageTags_setup, stageTags_fetch, stageTags_provision]

theorem stageTags_syn (env : PrEnv) :
    stageTags (synEffs env) = List.replicate (changedDags env.pr_files).length 1 := by
  rw [stageTags, synEffs]
  induction changedDags env.pr_files with
  | nil => rfl
  | cons f rest ih => simp [List.filterMap_cons, ih, List.replicate_succ, Effect.stageTag]

theorem stageTags_struct (env : PrEnv) :
    stageTags (structEffs env) = List.replicate (changedDags env.pr_files).length 3 := by
  rw [stageTags, structEffs]
  induction changedDags env.pr_files with
  | nil => rfl
  | cons f rest ih => simp [List.filterMap_cons, ih, List.replicate_succ, Effect.stageTag]

/-! ### Characterization of the syntax stage fold -/

theorem validate_syntax_foldl (dag_files : List String) (dir : String)
    (c : String → CmdResult) (acc : StageResults) :
    dag_files.foldl
      (fun results dag_file =>
        let result := c (dir ++ "/" ++ dag_file)
        if result.returncode = 0 then
          { results with passed := results.passed ++ [dag_file] }
        else
          { results with failed := results.failed ++ [{ file := dag_file, error := result.stderr }] })
      acc =
    { passed := acc.passed ++
        dag_files.filter (fun f => (c (dir ++ "/" ++ f)).returncode == 0),
      failed := acc.failed ++
        (dag_files.filter (fun f => !((c (dir ++ "/" ++ f)).returncode == 0))).map
          (fun f => { file := f, error := (c (dir ++ "/" ++ f)).stderr }) } := by
  induction dag_files generalizing acc with
  | nil => simp
  | cons f rest ih =>
    by_cases h : (c (dir ++ "/" ++ f)).returncode = 0 <;>
      simp [List.foldl_cons, List.filter_cons, h, ih]

/-- `validate_syntax` partitions its input: `passed` is the sublist of files
whose compile succeeded, `failed` the sublist of failing files paired with
their stderr, both in input order. -/
theorem validate_syntax_spec (dag_files : List String) (dir : String)
    (c : String → CmdResult) :
    ( validate_syntax dag_files dir c).passed =
        dag_files.filter (fun f => (c (dir ++ "/" ++ f)).returncode == 0) ∧
    ( validate_syntax dag_files dir c).failed =
        (dag_files.filter (fun f => !((c (dir ++ "/" ++ f)).returncode == 0))).map
          (fun f => { file := f, error := (c (dir ++ "/" ++ f)).stderr }) := by
  rw [ validate_syntax, validate_syntax_foldl]
  exact ⟨by simp, by simp⟩

/-! ### Filesystem lemmas -/

theorem key_inj (dir a b : String) (h : dir ++ "/" ++ a = dir ++ "/" ++ b) : a = b := by
  apply String.ext
  have hd := congrArg String.data h
  simp only [String.data_append] at hd
  exact List.append_cancel_left hd

theorem Fs.lookup_write (fs : Fs) (k c p : String) :
    Fs.lookup (Fs.write fs k c) p = if k = p then some c else Fs.lookup fs p := rfl

theorem Fs.lookup_rmtree (fs : Fs) (dir p : String) (hp : strPre dir p = true) :
    Fs.lookup (Fs.rmtree fs dir) p = none := by
  induction fs with
  | nil => rfl
  | cons e rest ih =>
    rw [Fs.rmtree, List.filter_cons] at *
    by_cases he : strPre dir e.1
    · simpa [he] using ih
    · have hep : e.1 ≠ p := fun hq => he (hq ▸ hp)
      simpa [he, Fs.lookup, hep] using ih

/-- The content the PR overlay assigns to relative path `p`: that of the
last non-removed changed file named `p`, if any. -/
def overlayContent : List PRFile → String → Option String
  | [], _ => none
  | f :: rest, p =>
    match overlayContent rest p with
    | some c => some c
    | none =>
      if f.status ≠ FileStatus.removed ∧ f.filename = p then some f.content else none

theorem overlay_lookup (dir : String) (pr_files : List PRFile) (B : Fs) (p : String) :
    Fs.lookup (applyPrOverlay dir pr_files B) (dir ++ "/" ++ p) =
      match overlayContent pr_files p with
      | some c => some c
      | none => Fs.lookup B (dir ++ "/" ++ p) := by
  induction pr_files generalizing B with
  | nil => rfl
  | cons f rest ih =>
    simp only [applyPrOverlay, List.foldl_cons] at ih ⊢
    rw [ih]
    cases hc : overlayContent rest p with
    | some c => simp [overlayContent, hc]
    | none =>
      simp only [overlayContent, hc]
      by_cases hrem : f.status = FileStatus.removed
      · simp [hrem]
      · by_cases hname : f.filename = p
        · subst hname
          simp [hrem, Fs.lookup_write]
        · have hk : dir ++ "/" ++ f.filename ≠ dir ++ "/" ++ p :=
            fun hq => hname (key_inj dir f.filename p hq)
          simp [hrem, hname, Fs.lookup_write, hk]

/-- Two filesystems agreeing on every path under `dir`. -/
def agreeUnder (dir : String) (fs fs2 : Fs) : Prop :=
  ∀ p, strPre dir p = true → Fs.lookup fs p = Fs.lookup fs2 p

theorem agreeUnder_rmtree (dir : String) (fs fs2 : Fs) :
    agreeUnder dir (Fs.rmtree fs dir) (Fs.rmtree fs2 dir) := fun p hp => by
  rw [Fs.lookup_rmtree fs dir p hp, Fs.lookup_rmtree fs2 dir p hp]

theorem agreeUnder_write (dir : String) {fs fs2 : Fs} (h : agreeUnder dir fs fs2)
    (k c : String) : agreeUnder dir (Fs.write fs k c) (Fs.write fs2 k c) := fun p hp => by
  rw [Fs.lookup_write, Fs.lookup_write]
  by_cases hk : k = p <;> simp [hk, h p hp]

theorem agreeUnder_foldl_write (dir dir2 : String) (l : List (String × String)) {fs fs2 : Fs}
    (h : agreeUnder dir fs fs2) :
    agreeUnder dir
      (l.foldl (fun fs bf => Fs.write fs (dir2 ++ "/" ++ bf.1) bf.2) fs)
      (l.foldl (fun fs bf => Fs.write fs (dir2 ++ "/" ++ bf.1) bf.2) fs2) := by
  induction l generalizing fs fs2 with
  | nil => exact h
  | cons bf rest ih => exact ih (agreeUnder_write dir h _ _)

theorem agreeUnder_overlay (dir dir2 : String) (l : List PRFile) {fs fs2 : Fs}
    (h : agreeUnder dir fs fs2) :
    agreeUnder dir (applyPrOverlay dir2 l fs) (applyPrOverlay dir2 l fs2) := by
  induction l generalizing fs fs2 with
  | nil => exact h
  | cons f rest ih =>
    simp only [applyPrOverlay, List.foldl_cons] at ih ⊢
    by_cases hrem : f.status = FileStatus.removed
    · simpa [hrem] using ih h
    · simpa [hrem] using ih (agreeUnder_write dir h _ _)

theorem agreeUnder_fsAfterFetch (env : PrEnv) (fs0 fs1 : Fs) :
    agreeUnder (base_dir env.pr_number) (fsAfterFetch env fs0) (fsAfterFetch env fs1) := by
  unfold fsAfterFetch
  exact agreeUnder_write _
    (agreeUnder_overlay _ _ _
      (agreeUnder_foldl_write _ _ _ (agreeUnder_rmtree _ fs0 fs1))) _ _

/-- In every control-flow path of `validate_pr`, the final workspace under
`base_dir` does not depend on the pre-existing filesystem contents. -/
theorem validate_pr_fs_agree (env : PrEnv) (fs0 fs1 : Fs) :
    agreeUnder (base_dir env.pr_number) (( validate_pr env fs0).2.1)
      (( validate_pr env fs1).2.1) := by
  by_cases hc : changedDags env.pr_files = []
  · rw [run_skipped env fs0 hc, run_skipped env fs1 hc]
    exact agreeUnder_rmtree _ fs0 fs1
  · by_cases hdb : env.db_migrate_run.returncode = 0
    · by_cases hs : (synRes env).failed = []
      · by_cases hi : (impRes env).success = true
        · by_cases hst : (structRes env).failed = []
          · rw [run_success env fs0 hc hdb hs hi hst, run_success env fs1 hc hdb hs hi hst]
            exact agreeUnder_write _ (agreeUnder_fsAfterFetch env fs0 fs1) _ _
          · rw [run_struct_fail env fs0 hc hdb hs hi hst,
              run_struct_fail env fs1 hc hdb hs hi hst]
            exact agreeUnder_write _ (agreeUnder_fsAfterFetch env fs0 fs1) _ _
        · have hi2 : (impRes env).success = false := by
            cases hsv : (impRes env).success
            · rfl
            · exact absurd hsv hi
          rw [run_imp_fail env fs0 hc hdb hs hi2, run_imp_fail env fs1 hc hdb hs hi2]
          exact agreeUnder_write _ (agreeUnder_fsAfterFetch env fs0 fs1) _ _
      · rw [run_syn_fail env fs0 hc hdb hs, run_syn_fail env fs1 hc hdb hs]
        exact agreeUnder_write _ (agreeUnder_fsAfterFetch env fs0 fs1) _ _
    · rw [run_db_fail env fs0 hc hdb, run_db_fail env fs1 hc hdb]
      exact agreeUnder_write _ (agreeUnder_fsAfterFetch env fs0 fs1) _ _

/-! ### Shared helpers for the claim theorems -/

theorem strPre_append (s t : String) : strPre s (s ++ t) = true := by
  simp [strPre, String.data_append, List.isPrefixOf_iff_prefix]

theorem stageTags_import : stageTags [Effect.import_check] = [2] := rfl

theorem stageTags_write (r : Report) : stageTags [Effect.write_report r] = [] := rfl

theorem persistedReports_nil : persistedReports [] = [] := rfl

theorem stageTags_nil : stageTags [] = [] := rfl

theorem persistedReports_write (r : Report) :
    persistedReports [Effect.write_report r] = [r] := rfl

theorem persistedReports_import_cons (l : List Effect) :
    persistedReports (Effect.import_check :: l) = persistedReports l := rfl

theorem persistedReports_write_cons (r : Report) (l : List Effect) :
    persistedReports (Effect.write_report r :: l) = r :: persistedReports l := rfl

theorem stageTags_import_cons (l : List Effect) :
    stageTags (Effect.import_check :: l) = 2 :: stageTags l := rfl

theorem stageTags_write_cons (r : Report) (l : List Effect) :
    stageTags (Effect.write_report r :: l) = stageTags l := rfl

theorem overlayContent_eq_none (pr_files : List PRFile) (p : String)
    (h : ∀ f ∈ pr_files, f.status ≠ FileStatus.removed → f.filename ≠ p) :
    overlayContent pr_files p = none := by
  induction pr_files with
  | nil => rfl
  | cons f rest ih =>
    rw [overlayContent, ih (fun g hg => h g (List.mem_cons_of_mem f hg))]
    have hf := h f (List.mem_cons_self f rest)
    by_cases hrem : f.status = FileStatus.removed
    · simp [hrem]
    · simp [hrem, hf hrem]

/-- The `message` the first failing stage assigns to the report, if any
stage fails on inputs `env`. -/
def firstFailMessage (env : PrEnv) : Option String :=
  if (synRes env).failed ≠ [] then some "Syntax validation failed"
  else if (impRes env).success = false then some "Import validation failed"
  else if (structRes env).failed ≠ [] then some "Structure validation failed"
  else none

/-! ### Concrete fixtures for witnesses and counterexamples -/

/-- A subprocess result with returncode 0. -/
def okCmd : CmdResult := { returncode := 0, stdout := "", stderr := "" }

/-- A subprocess result with returncode 1 and a captured error text. -/
def failCmd : CmdResult := { returncode := 1, stdout := "", stderr := "SyntaxError" }

/-- A run whose only changed DAG file fails the syntax check. -/
def envSynFail : PrEnv :=
  { pr_number := 7, timestamp := "2026-01-01T00:00:00", base_ref := "main",
    branch_files := [("dags/old.py", "old"), ("README.md", "readme")],
    pr_files := [{ filename := "dags/a.py", status := FileStatus.modified, content := "A" }],
    py_compile := fun p => if p = "/tmp/airflow_pr_7/dags/a.py" then failCmd else okCmd,
    import_run := okCmd, struct_run := fun _ => okCmd, db_migrate_run := okCmd }

/-- A run whose changed-file list contains no DAG file. -/
def envSkip : PrEnv :=
  { pr_number := 3, timestamp := "2026-01-02T00:00:00", base_ref := "main",
    branch_files := [("README.md", "readme")],
    pr_files := [{ filename := "README.md", status := FileStatus.modified, content := "R" }],
    py_compile := fun _ => okCmd, import_run := okCmd, struct_run := fun _ => okCmd,
    db_migrate_run := okCmd }

/-! ### Claim theorems -/

/-- C1, counterexample: on a run whose syntax stage fails, `validate_pr`
raises, but the report persisted to the JSON file has status `"error"`,
not `"failed"` as the claim states — the exception handler overwrites the
`"failed"` status before persisting. -/
theorem C1_counterexample :
    ( validate_syntax (changedDags envSynFail.pr_files) (base_dir envSynFail.pr_number)
        envSynFail.py_compile).failed ≠ [] ∧
    ( validate_pr envSynFail []).1.isOk = false ∧
    (persistedReports (( validate_pr envSynFail []).2.2)).map Report.status = ["error"] :=
  ⟨by decide, by decide, by decide⟩

/-- C1, amended: on any stage failure (first failing stage determining the
message), `validate_pr` raises — halting the remaining stages — and the one
report persisted to the JSON file carries status `"error"` (the in-memory
`"failed"` status is overwritten by the exception handler) together with
the message naming the failing stage. -/
theorem C1_amended_thm (env : PrEnv) (fs0 : Fs) (m : String)
    (h1 : changedDags env.pr_files ≠ []) (h2 : env.db_migrate_run.returncode = 0)
    (hm : firstFailMessage env = some m) :
    ( validate_pr env fs0).1.isOk = false ∧
    (persistedReports (( validate_pr env fs0).2.2)).map (fun r => (r.status, r.message)) =
      [("error", some m)] := by
  by_cases hs : (synRes env).failed = []
  · by_cases hi : (impRes env).success = true
    · by_cases hst : (structRes env).failed = []
      · rw [firstFailMessage] at hm
        simp [hs, hi, hst] at hm
      · rw [run_struct_fail env fs0 h1 h2 hs hi hst]
        rw [firstFailMessage] at hm
        simp only [hs, hi, hst, ne_eq, not_true_eq_false, Bool.true_eq_false, if_false,
          not_false_eq_true, if_true, Option.some.injEq] at hm
        subst hm
        simp [persistedReports_append, persistedReports_prelude, persistedReports_syn,
          persistedReports_struct, persistedReports_write, persistedReports_nil, persistedReports_import_cons,
          persistedReports_write_cons, structFailReport, Except.isOk, Except.toBool]
    · have hi2 : (impRes env).success = false := by
        cases hsv : (impRes env).success
        · rfl
        · exact absurd hsv hi
      rw [run_imp_fail env fs0 h1 h2 hs hi2]
      rw [firstFailMessage] at hm
      simp only [hs, hi2, ne_eq, not_true_eq_false, if_false, if_true, Option.some.injEq] at hm
      subst hm
      simp [persistedReports_append, persistedReports_prelude, persistedReports_syn,
        persistedReports_write, persistedReports_nil, persistedReports_import_cons, persistedReports_write_cons,
        impFailReport, Except.isOk, Except.toBool]
  · rw [run_syn_fail env fs0 h1 h2 hs]
    rw [firstFailMessage] at hm
    simp only [hs, ne_eq, not_false_eq_true, if_true, Option.some.injEq] at hm
    subst hm
    simp [persistedReports_append, persistedReports_prelude, persistedReports_syn,
      persistedReports_write, persistedReports_nil, persistedReports_import_cons, persistedReports_write_cons,
      synFailReport, Except.isOk, Except.toBool]

/-- C1, witness: the amended claim at the concrete syntax-failure run. -/
theorem C1_witness :
    ( validate_pr envSynFail []).1.isOk = false ∧
    (persistedReports (( validate_pr envSynFail []).2.2)).map (fun r => (r.status, r.message)) =
      [("error", some "Syntax validation failed")] :=
  C1_amended_thm envSynFail [] "Syntax validation failed" (by decide) (by decide) (by decide)

/-- C2: the Check Runner subprocesses of any run, in order.  Stage order is
fixed (all syntax compiles, then the single import check, then the structure
checks), and the trace is truncated at the first failing stage: after a
syntax failure neither the import nor the structure stage runs, and after
an import failure the structure stage never runs. -/
theorem C2_stage_order (env : PrEnv) (fs0 : Fs) :
    stageTags (( validate_pr env fs0).2.2) =
      if changedDags env.pr_files = [] then []
      else if env.db_migrate_run.returncode ≠ 0 then []
      else
        List.replicate (changedDags env.pr_files).length 1 ++
          (if (synRes env).failed ≠ [] then []
           else 2 :: (if (impRes env).success = false then []
             else List.replicate (changedDags env.pr_files).length 3)) := by
  by_cases hc : changedDags env.pr_files = []
  · rw [run_skipped env fs0 hc, stageTags_setup]
    simp [hc]
  · by_cases hdb : env.db_migrate_run.returncode = 0
    · by_cases hs : (synRes env).failed = []
      · by_cases hi : (impRes env).success = true
        · by_cases hst : (structRes env).failed = []
          · rw [run_success env fs0 hc hdb hs hi hst]
            simp [stageTags_append, stageTags_prelude, stageTags_syn, stageTags_struct,
              stageTags_nil, stageTags_import_cons, stageTags_write_cons, hc, hdb, hs, hi]
          · rw [run_struct_fail env fs0 hc hdb hs hi hst]
            simp [stageTags_append, stageTags_prelude, stageTags_syn, stageTags_struct,
              stageTags_nil, stageTags_import_cons, stageTags_write_cons, hc, hdb, hs, hi]
        · have hi2 : (impRes env).success = false := by
            cases hsv : (impRes env).success
            · rfl
            · exact absurd hsv hi
          rw [run_imp_fail env fs0 hc hdb hs hi2]
          simp [stageTags_append, stageTags_prelude, stageTags_syn, stageTags_nil,
            stageTags_import_cons, stageTags_write_cons, hc, hdb, hs, hi2]
      · rw [run_syn_fail env fs0 hc hdb hs]
        simp [stageTags_append, stageTags_prelude, stageTags_syn, stageTags_nil,
          stageTags_write_cons, hc, hdb, hs]
    · have hdb2 : env.db_migrate_run.returncode ≠ 0 := hdb
      rw [run_db_fail env fs0 hc hdb2]
      simp [stageTags_append, stageTags_prelude, stageTags_nil, stageTags_write_cons,
        hc, hdb2]

/-- C3: when the changed-file list contains no DAG file, `validate_pr`
returns the report with status exactly `"skipped"` without raising, and the
trace contains no provisioning subprocess (`uv`), no database
initialisation, and no Check Runner stage. -/
theorem C3_skipped (env : PrEnv) (fs0 : Fs) (h : changedDags env.pr_files = []) :
    ( validate_pr env fs0).1 = Except.ok (skipReport env) ∧
    (skipReport env).status = "skipped" ∧
    (( validate_pr env fs0).2.2).all
      (fun e => !(e.isProvision || e.isCheckRun || e.isDbMigrate)) = true := by
  rw [run_skipped env fs0 h]
  refine ⟨rfl, rfl, ?_⟩
  unfold setupEffs
  split <;> rfl

/-- C3, witness: a run changing only a README is skipped with no
provisioning and no checks. -/
theorem C3_witness :
    ( validate_pr envSkip []).1 = Except.ok (skipReport envSkip) ∧
    (skipReport envSkip).status = "skipped" ∧
    (( validate_pr envSkip []).2.2).all
      (fun e => !(e.isProvision || e.isCheckRun || e.isDbMigrate)) = true :=
  C3_skipped envSkip [] (by decide)

/-- C4: the syntax stage partitions its input.  For a duplicate-free input
list, a file whose compile fails appears exactly once in `failed` paired
with its stderr and never in `passed`; a file whose compile succeeds appears
exactly once in `passed` and never in `failed`; and the same counts hold for
any permutation of the input list, so membership is order-independent. -/
theorem C4_partition (files files2 : List String) (dir : String) (c : String → CmdResult)
    (f : String) (hnd : files.Nodup) (hf : f ∈ files) (hperm : files.Perm files2) :
    if (c (dir ++ "/" ++ f)).returncode = 0 then
      ( validate_syntax files dir c).passed.count f = 1 ∧
      (( validate_syntax files dir c).failed.map FailEntry.file).count f = 0 ∧
      ( validate_syntax files2 dir c).passed.count f = 1
    else
      ( validate_syntax files dir c).failed.count
          { file := f, error := (c (dir ++ "/" ++ f)).stderr } = 1 ∧
      ( validate_syntax files dir c).passed.count f = 0 ∧
      ( validate_syntax files2 dir c).failed.count
          { file := f, error := (c (dir ++ "/" ++ f)).stderr } = 1 := by
  have hnd2 : files2.Nodup := hperm.nodup_iff.mp hnd
  have hf2 : f ∈ files2 := hperm.mem_iff.mp hf
  have hinj : Function.Injective
      (fun g => ({ file := g, error := (c (dir ++ "/" ++ g)).stderr } : FailEntry)) := by
    intro a b hab
    exact congrArg FailEntry.file hab
  obtain ⟨hp1, hf1⟩ := validate_syntax_spec files dir c
  obtain ⟨hp2, hq2⟩ := validate_syntax_spec files2 dir c
  by_cases h : (c (dir ++ "/" ++ f)).returncode = 0
  · rw [if_pos h]
    refine ⟨?_, ?_, ?_⟩
    · rw [hp1]
      exact List.count_eq_one_of_mem (hnd.filter _)
        (List.mem_filter.mpr ⟨hf, by simp [h]⟩)
    · rw [hf1, List.map_map]
      refine List.count_eq_zero_of_not_mem (fun hmem => ?_)
      obtain ⟨g, hg, hgf⟩ := List.mem_map.mp hmem
      obtain ⟨-, hgc⟩ := List.mem_filter.mp hg
      simp only [Function.comp] at hgf
      subst hgf
      simp [h] at hgc
    · rw [hp2]
      exact List.count_eq_one_of_mem (hnd2.filter _)
        (List.mem_filter.mpr ⟨hf2, by simp [h]⟩)
  · rw [if_neg h]
    refine ⟨?_, ?_, ?_⟩
    · rw [hf1]
      refine List.count_eq_one_of_mem ((hnd.filter _).map hinj) ?_
      exact List.mem_map.mpr ⟨f, List.mem_filter.mpr ⟨hf, by simp [h]⟩, rfl⟩
    · rw [hp1]
      refine List.count_eq_zero_of_not_mem (fun hmem => ?_)
      obtain ⟨-, hgc⟩ := List.mem_filter.mp hmem
      simp [h] at hgc
    · rw [hq2]
      refine List.count_eq_one_of_mem ((hnd2.filter _).map hinj) ?_
      exact List.mem_map.mpr ⟨f, List.mem_filter.mpr ⟨hf2, by simp [h]⟩, rfl⟩

/-- C4, witness: two files, A failing and B passing, in both input orders. -/
theorem C4_witness :
    if (envSynFail.py_compile ("/tmp/airflow_pr_7" ++ "/" ++ "dags/a.py")).returncode = 0 then
      ( validate_syntax ["dags/a.py", "dags/b.py"] "/tmp/airflow_pr_7"
          envSynFail.py_compile).passed.count "dags/a.py" = 1 ∧
      (( validate_syntax ["dags/a.py", "dags/b.py"] "/tmp/airflow_pr_7"
          envSynFail.py_compile).failed.map FailEntry.file).count "dags/a.py" = 0 ∧
      ( validate_syntax ["dags/b.py", "dags/a.py"] "/tmp/airflow_pr_7"
          envSynFail.py_compile).passed.count "dags/a.py" = 1
    else
      ( validate_syntax ["dags/a.py", "dags/b.py"] "/tmp/airflow_pr_7"
          envSynFail.py_compile).failed.count
          { file := "dags/a.py",
            error := (envSynFail.py_compile ("/tmp/airflow_pr_7" ++ "/" ++ "dags/a.py")).stderr } = 1 ∧
      ( validate_syntax ["dags/a.py", "dags/b.py"] "/tmp/airflow_pr_7"
          envSynFail.py_compile).passed.count "dags/a.py" = 0 ∧
      ( validate_syntax ["dags/b.py", "dags/a.py"] "/tmp/airflow_pr_7"
          envSynFail.py_compile).failed.count
          { file := "dags/a.py",
            error := (envSynFail.py_compile ("/tmp/airflow_pr_7" ++ "/" ++ "dags/a.py")).stderr } = 1 :=
  C4_partition ["dags/a.py", "dags/b.py"] ["dags/b.py", "dags/a.py"] "/tmp/airflow_pr_7"
    envSynFail.py_compile "dags/a.py" (by decide) (by decide)
    (List.Perm.swap "dags/b.py" "dags/a.py" [])

/-- C5: the fetch-phase overlay.  Looking up any workspace path
`dir/p` after the overlay yields the content of the last non-removed
changed file named `p` when one exists, and the base-branch content
otherwise; in particular (second conjunct) when no non-removed changed file
is named `p` — e.g. when `p` only appears with `removed` status — the
base-branch entry remains present, untouched. -/
theorem C5_overlay (dir : String) (pr_files : List PRFile) (B : Fs) (p : String) :
    (Fs.lookup (applyPrOverlay dir pr_files B) (dir ++ "/" ++ p) =
      match overlayContent pr_files p with
      | some c => some c
      | none => Fs.lookup B (dir ++ "/" ++ p)) ∧
    ((∀ f ∈ pr_files, f.status ≠ FileStatus.removed → f.filename ≠ p) →
      Fs.lookup (applyPrOverlay dir pr_files B) (dir ++ "/" ++ p) =
        Fs.lookup B (dir ++ "/" ++ p)) := by
  refine ⟨overlay_lookup dir pr_files B p, fun h => ?_⟩
  rw [overlay_lookup dir pr_files B p, overlayContent_eq_none pr_files p h]

/-- C5, witness: a file with `removed` status present in the base branch
survives the overlay, while a modified file is overwritten. -/
theorem C5_witness :
    Fs.lookup
      (applyPrOverlay "/ws"
        [{ filename := "dags/a.py", status := FileStatus.modified, content := "new" },
         { filename := "dags/gone.py", status := FileStatus.removed, content := "" }]
        [("/ws" ++ "/" ++ "dags/gone.py", "kept"), ("/ws" ++ "/" ++ "dags/a.py", "old")])
      ("/ws" ++ "/" ++ "dags/gone.py") = some "kept" := by
  have h := (C5_overlay "/ws"
    [{ filename := "dags/a.py", status := FileStatus.modified, content := "new" },
     { filename := "dags/gone.py", status := FileStatus.removed, content := "" }]
    [("/ws" ++ "/" ++ "dags/gone.py", "kept"), ("/ws" ++ "/" ++ "dags/a.py", "old")]
    "dags/gone.py").2 (by decide)
  rw [h]
  decide

/-- C6: every report persisted to the JSON file contains the keys
`pr_number`, `timestamp` and `status`, and its status is drawn from
{running, skipped, success, failed, error}. -/
theorem C6_report_shape (env : PrEnv) (fs0 : Fs) :
    (persistedReports (( validate_pr env fs0).2.2)).all
      (fun r => (Report.keys r).contains "pr_number" && (Report.keys r).contains "timestamp"
        && (Report.keys r).contains "status"
        && (["running", "skipped", "success", "failed", "error"].contains r.status)) = true := by
  by_cases hc : changedDags env.pr_files = []
  · rw [run_skipped env fs0 hc, persistedReports_setup]
    rfl
  · by_cases hdb : env.db_migrate_run.returncode = 0
    · by_cases hs : (synRes env).failed = []
      · by_cases hi : (impRes env).success = true
        · by_cases hst : (structRes env).failed = []
          · rw [run_success env fs0 hc hdb hs hi hst]
            simp [persistedReports_append, persistedReports_prelude, persistedReports_syn,
              persistedReports_struct, persistedReports_nil, persistedReports_import_cons,
              persistedReports_write_cons, persistedReports_write, successReport, Report.keys]
          · rw [run_struct_fail env fs0 hc hdb hs hi hst]
            simp [persistedReports_append, persistedReports_prelude, persistedReports_syn,
              persistedReports_struct, persistedReports_nil, persistedReports_import_cons,
              persistedReports_write_cons, persistedReports_write, structFailReport, Report.keys]
        · have hi2 : (impRes env).success = false := by
            cases hsv : (impRes env).success
            · rfl
            · exact absurd hsv hi
          rw [run_imp_fail env fs0 hc hdb hs hi2]
          simp [persistedReports_append, persistedReports_prelude, persistedReports_syn,
            persistedReports_nil, persistedReports_import_cons, persistedReports_write_cons,
            persistedReports_write, impFailReport, Report.keys]
      · rw [run_syn_fail env fs0 hc hdb hs]
        simp [persistedReports_append, persistedReports_prelude, persistedReports_syn,
          persistedReports_nil, persistedReports_write_cons, persistedReports_write,
          synFailReport, Report.keys]
    · have hdb2 : env.db_migrate_run.returncode ≠ 0 := hdb
      rw [run_db_fail env fs0 hc hdb2]
      simp [persistedReports_append, persistedReports_prelude, persistedReports_nil,
        persistedReports_write_cons, persistedReports_write, dbFailReport, initialReport,
        Report.keys]

/-- C7: re-running validation for a PR number first deletes the whole
scratch workspace — after the cleaning step every path under `base_dir`
is absent — and consequently the final workspace contents under `base_dir`
are independent of whatever a previous run (or anything else) left there. -/
theorem C7_fresh_workspace (env : PrEnv) (fs0 fs1 : Fs) (p : String)
    (hp : strPre (base_dir env.pr_number) p = true) :
    Fs.lookup (Fs.rmtree fs0 (base_dir env.pr_number)) p = none ∧
    Fs.lookup (( validate_pr env fs0).2.1) p = Fs.lookup (( validate_pr env fs1).2.1) p :=
  ⟨Fs.lookup_rmtree fs0 (base_dir env.pr_number) p hp,
   validate_pr_fs_agree env fs0 fs1 p hp⟩

/-- C7, witness: a leftover file of a previous run for PR 3 is erased and
does not influence the new final workspace. -/
theorem C7_witness :
    Fs.lookup (Fs.rmtree [("/tmp/airflow_pr_3/dags/stale.py", "stale")] (base_dir 3))
      "/tmp/airflow_pr_3/dags/stale.py" = none ∧
    Fs.lookup (( validate_pr envSkip [("/tmp/airflow_pr_3/dags/stale.py", "stale")]).2.1)
        "/tmp/airflow_pr_3/dags/stale.py" =
      Fs.lookup (( validate_pr envSkip []).2.1) "/tmp/airflow_pr_3/dags/stale.py" :=
  C7_fresh_workspace envSkip [("/tmp/airflow_pr_3/dags/stale.py", "stale")] []
    "/tmp/airflow_pr_3/dags/stale.py" (by decide)

/-- C8: on successful fetch and variable read, the polling check returns
true and pushes the fetched SHA exactly when the fetched SHA differs from
the persisted value (the absent persisted value, `none`, differs from every
SHA); otherwise it returns false and pushes nothing. -/
theorem C8_change_detection (latest_commit : String) (last_deployed_commit : Option String) :
    check_for_updates (Except.ok latest_commit) (Except.ok last_deployed_commit) =
      if last_deployed_commit = some latest_commit then (false, none)
      else (true, some latest_commit) := by
  by_cases h : last_deployed_commit = some latest_commit <;>
    simp [ check_for_updates, h]

/-- C9: when the fetch of the latest commit or the variable read raises,
`check_for_updates` catches the exception and returns false without
pushing anything, instead of propagating. -/
theorem C9_total_on_errors (fetchSha : Except String String)
    (varGet : Except String (Option String))
    (h : (∃ e, fetchSha = Except.error e) ∨ (∃ e, varGet = Except.error e)) :
    check_for_updates fetchSha varGet = (false, none) := by
  rcases h with ⟨e, rfl⟩ | ⟨e, rfl⟩
  · rfl
  · cases fetchSha <;> rfl

/-- C9, witness: a network failure while fetching yields false. -/
theorem C9_witness :
    check_for_updates (Except.error "HTTPError") (Except.ok none) = (false, none) :=
  C9_total_on_errors (Except.error "HTTPError") (Except.ok none)
    (Or.inl ⟨"HTTPError", rfl⟩)

/-- C10: on the skipped path no report is persisted — there is no report
write in the trace and `validation_report.json` is absent from the final
workspace; the report file is written exactly on the success path (one
report, status `"success"`) and on the exception path (one report, status
`"error"`), never otherwise. -/
theorem C10_skip_writes_nothing (env : PrEnv) (fs0 : Fs) :
    (changedDags env.pr_files = [] →
      persistedReports (( validate_pr env fs0).2.2) = [] ∧
      Fs.lookup (( validate_pr env fs0).2.1) (reportPath env.pr_number) = none) ∧
    ((( validate_pr env fs0).1.isOk = false) →
      (persistedReports (( validate_pr env fs0).2.2)).map Report.status = ["error"]) ∧
    ((persistedReports (( validate_pr env fs0).2.2)).map Report.status = [] ∨
     (persistedReports (( validate_pr env fs0).2.2)).map Report.status = ["success"] ∨
     (persistedReports (( validate_pr env fs0).2.2)).map Report.status = ["error"]) := by
  by_cases hc : changedDags env.pr_files = []
  · rw [run_skipped env fs0 hc]
    refine ⟨fun _ => ⟨persistedReports_setup env fs0, ?_⟩, fun habs => ?_, ?_⟩
    · rw [reportPath]
      exact Fs.lookup_rmtree fs0 (base_dir env.pr_number) _ (strPre_append _ _)
    · simp [Except.isOk, Except.toBool] at habs
    · left
      rw [persistedReports_setup]
      rfl
  · by_cases hdb : env.db_migrate_run.returncode = 0
    · by_cases hs : (synRes env).failed = []
      · by_cases hi : (impRes env).success = true
        · by_cases hst : (structRes env).failed = []
          · rw [run_success env fs0 hc hdb hs hi hst]
            refine ⟨fun habs => absurd habs hc, fun habs => ?_, Or.inr (Or.inl ?_)⟩
            · simp [Except.isOk, Except.toBool] at habs
            · simp [persistedReports_append, persistedReports_prelude, persistedReports_syn,
                persistedReports_struct, persistedReports_nil, persistedReports_import_cons,
                persistedReports_write_cons, persistedReports_write, successReport]
          · rw [run_struct_fail env fs0 hc hdb hs hi hst]
            refine ⟨fun habs => absurd habs hc, fun _ => ?_, Or.inr (Or.inr ?_)⟩ <;>
              simp [persistedReports_append, persistedReports_prelude, persistedReports_syn,
                persistedReports_struct, persistedReports_nil, persistedReports_import_cons,
                persistedReports_write_cons, persistedReports_write, structFailReport]
        · have hi2 : (impRes env).success = false := by
            cases hsv : (impRes env).success
            · rfl
            · exact absurd hsv hi
          rw [run_imp_fail env fs0 hc hdb hs hi2]
          refine ⟨fun habs => absurd habs hc, fun _ => ?_, Or.inr (Or.inr ?_)⟩ <;>
            simp [persistedReports_append, persistedReports_prelude, persistedReports_syn,
              persistedReports_nil, persistedReports_import_cons, persistedReports_write_cons,
              persistedReports_write, impFailReport]
      · rw [run_syn_fail env fs0 hc hdb hs]
        refine ⟨fun habs => absurd habs hc, fun _ => ?_, Or.inr (Or.inr ?_)⟩ <;>
          simp [persistedReports_append, persistedReports_prelude, persistedReports_syn,
            persistedReports_nil, persistedReports_write_cons, persistedReports_write,
            synFailReport]
    · have hdb2 : env.db_migrate_run.returncode ≠ 0 := hdb
      rw [run_db_fail env fs0 hc hdb2]
      refine ⟨fun habs => absurd habs hc, fun _ => ?_, Or.inr (Or.inr ?_)⟩ <;>
        simp [persistedReports_append, persistedReports_prelude, persistedReports_nil,
          persistedReports_write_cons, persistedReports_write, dbFailReport, initialReport]

/-- C10, witness: the concrete skipped run persists nothing, and the
concrete syntax-failure run persists exactly one error report. -/
theorem C10_witness :
    (persistedReports (( validate_pr envSkip []).2.2) = [] ∧
     Fs.lookup (( validate_pr envSkip []).2.1) (reportPath envSkip.pr_number) = none) ∧
    (persistedReports (( validate_pr envSynFail []).2.2)).map Report.status = ["error"] :=
  ⟨(C10_skip_writes_nothing envSkip []).1 (by decide),
   (C10_skip_writes_nothing envSynFail []).2.1 (by decide)⟩

end Chia
